import Mathlib

/-!
Verification of the 1claw-sdk client against its design document.

The repository sources available here are `types.ts` (wire-level type
definitions), the `SharingResource` and `AgentsResource` proxies, and the
MCP tool definitions.  The request-pipeline implementation itself
(credential store, error classifier, payment negotiator, orchestrator) is
not among the available sources, so those components are modelled
faithfully from the design document and marked as such; the proxies and
tool definitions are embedded directly from the source.
-/

namespace Oneclaw

/-! ## Source-embedded data model (types.ts) -/

/-- A minimal JSON value type, standing in for `Record<string, unknown>`
and JSON-Schema objects in the TypeScript source. -/
inductive Json where
  | str (s : String)
  | num (n : Int)
  | bool (b : Bool)
  | arr (xs : List Json)
  | obj (fields : List (String × Json))

/-- The error object of the standard envelope in `types.ts`:
`\x7b type: string; message: string; detail?: string \x7d`. -/
structure ErrorShape where
  type : String
  message : String
  detail : Option String

/-- `ResponseMeta` from `types.ts`. -/
structure ResponseMeta where
  status : Nat
  requestId : Option String

/-- `OneclawResponse<T>` from `types.ts`: the standard envelope. -/
structure OneclawResponse (α : Type) where
  data : Option α
  error : Option ErrorShape
  meta : Option ResponseMeta

/-- `TokenResponse` from `types.ts`. -/
structure TokenResponse where
  access_token : String
  token_type : String
  expires_in : Nat
  refresh_token : Option String

/-- `PaymentAccept` from `types.ts` (a single payment offer). -/
structure PaymentAccept where
  scheme : String
  network : String
  payTo : String
  price : String
  requiredDeadlineSeconds : Nat
  deriving DecidableEq

/-- `PaymentRequirement` from `types.ts`. -/
structure PaymentRequirement where
  x402Version : Nat
  accepts : List PaymentAccept
  description : String
  deriving DecidableEq

/-- `PaymentPayload` from `types.ts`. -/
structure PaymentPayload where
  x402Version : Nat
  scheme : String
  network : String
  payload : String
  deriving DecidableEq

/-- `CreateShareRequest` from `types.ts`. -/
structure CreateShareRequest where
  recipient_type : String
  recipient_id : Option String
  permissions : Option (List String)
  max_access_count : Option Nat
  expires_at : String
  passphrase : Option String
  ip_allowlist : Option (List String)

/-- `ShareResponse` from `types.ts`. -/
structure ShareResponse where
  id : String
  share_url : String

/-- `SecretResponse` from `types.ts`. -/
structure SecretResponse where
  id : String
  path : String
  type : String
  value : String
  version : Nat
  metadata : Json
  created_by : String
  created_at : String
  expires_at : Option String

/-- `CreateAgentRequest` from `types.ts`. -/
structure CreateAgentRequest where
  name : String
  description : Option String
  auth_method : Option String
  scopes : Option (List String)
  expires_at : Option String

/-- `UpdateAgentRequest` from `types.ts`. -/
structure UpdateAgentRequest where
  name : Option String
  scopes : Option (List String)
  is_active : Option Bool
  expires_at : Option (Option String)

/-- `AgentResponse` from `types.ts`. -/
structure AgentResponse where
  id : String
  name : String
  description : String
  auth_method : String
  scopes : List String
  is_active : Bool
  created_at : String
  expires_at : Option String
  last_active_at : Option String

/-- `AgentCreatedResponse` from `types.ts`. -/
structure AgentCreatedResponse where
  agent : AgentResponse
  api_key : String

/-- `AgentListResponse` from `types.ts`. -/
structure AgentListResponse where
  agents : List AgentResponse

/-- `AgentKeyRotatedResponse` from `types.ts`. -/
structure AgentKeyRotatedResponse where
  api_key : String

/-! ## Resource proxies (sharing.ts, agents.ts) -/

/-- The request bodies a proxy method can pass to `HttpClient.request`;
one constructor per body type used by the embedded proxies. -/
inductive ProxyBody where
  | share (options : CreateShareRequest)
  | createAgent (options : CreateAgentRequest)
  | updateAgent (update : UpdateAgentRequest)

/-- The `HttpClient` boundary the proxies use: one `request` operation
taking a method, a path and an optional body, generic in the typed
response payload (`http.request<T>(method, path, opts)` in the source). -/
structure HttpClient where
  request : (α : Type) → String → String → Option ProxyBody → OneclawResponse α

/-- `SharingResource` from sharing.ts: holds the `HttpClient`. -/
structure SharingResource where
  http : HttpClient

/-- `SharingResource.create`: POST `/v1/secrets/$\x7bsecretId\x7d/share`
with the options as body. -/
def SharingResource.create (r : SharingResource) (secretId : String)
    (options : CreateShareRequest) : OneclawResponse ShareResponse :=
  r.http.request ShareResponse "POST" ("/v1/secrets/" ++ secretId ++ "/share")
    (some (.share options))

/-- `SharingResource.access`: GET `/v1/share/$\x7bshareId\x7d`. -/
def SharingResource.access (r : SharingResource) (shareId : String) :
    OneclawResponse SecretResponse :=
  r.http.request SecretResponse "GET" ("/v1/share/" ++ shareId) none

/-- `SharingResource.revoke`: DELETE `/v1/share/$\x7bshareId\x7d`. -/
def SharingResource.revoke (r : SharingResource) (shareId : String) :
    OneclawResponse Unit :=
  r.http.request Unit "DELETE" ("/v1/share/" ++ shareId) none

/-- `AgentsResource` from agents.ts: holds the `HttpClient`. -/
structure AgentsResource where
  http : HttpClient

/-- `AgentsResource.create`: POST `/v1/agents` with the options as body. -/
def AgentsResource.create (r : AgentsResource) (options : CreateAgentRequest) :
    OneclawResponse AgentCreatedResponse :=
  r.http.request AgentCreatedResponse "POST" "/v1/agents" (some (.createAgent options))

/-- `AgentsResource.get`: GET `/v1/agents/$\x7bagentId\x7d`. -/
def AgentsResource.get (r : AgentsResource) (agentId : String) :
    OneclawResponse AgentResponse :=
  r.http.request AgentResponse "GET" ("/v1/agents/" ++ agentId) none

/-- `AgentsResource.list`: GET `/v1/agents`. -/
def AgentsResource.list (r : AgentsResource) : OneclawResponse AgentListResponse :=
  r.http.request AgentListResponse "GET" "/v1/agents" none

/-- `AgentsResource.update`: PATCH `/v1/agents/$\x7bagentId\x7d` with the
update as body. -/
def AgentsResource.update (r : AgentsResource) (agentId : String)
    (update : UpdateAgentRequest) : OneclawResponse AgentResponse :=
  r.http.request AgentResponse "PATCH" ("/v1/agents/" ++ agentId)
    (some (.updateAgent update))

/-- `AgentsResource.delete`: DELETE `/v1/agents/$\x7bagentId\x7d`. -/
def AgentsResource.delete (r : AgentsResource) (agentId : String) :
    OneclawResponse Unit :=
  r.http.request Unit "DELETE" ("/v1/agents/" ++ agentId) none

/-- `AgentsResource.rotateKey`: POST `/v1/agents/$\x7bagentId\x7d/rotate-key`. -/
def AgentsResource.rotateKey (r : AgentsResource) (agentId : String) :
    OneclawResponse AgentKeyRotatedResponse :=
  r.http.request AgentKeyRotatedResponse "POST"
    ("/v1/agents/" ++ agentId ++ "/rotate-key") none

/-! ## MCP tool definitions (mcp/tools.ts) -/

/-- `McpToolDefinition` from `types.ts`. -/
structure McpToolDefinition where
  name : String
  description : String
  inputSchema : Json

/-- `TOOL_GET_SECRET` from the MCP tools source. -/
def TOOL_GET_SECRET : McpToolDefinition :=
  { name := "1claw_get_secret",
    description :=
      "Fetch a decrypted secret from a 1Claw vault. " ++
      "Returns the secret value if access is granted. " ++
      "May return a pending_approval status if human approval is required.",
    inputSchema := .obj [
      ("type", .str "object"),
      ("properties", .obj [
        ("vault_id", .obj [
          ("type", .str "string"),
          ("description", .str "UUID of the vault containing the secret")]),
        ("key", .obj [
          ("type", .str "string"),
          ("description", .str "Path/key of the secret within the vault")]),
        ("reason", .obj [
          ("type", .str "string"),
          ("description", .str "Why the agent needs this secret (logged for audit)")])]),
      ("required", .arr [.str "vault_id", .str "key"])] }

/-- `TOOL_SET_SECRET` from the MCP tools source. -/
def TOOL_SET_SECRET : McpToolDefinition :=
  { name := "1claw_set_secret",
    description :=
      "Store or update a secret in a 1Claw vault. " ++
      "The value is encrypted at rest using HSM-backed keys.",
    inputSchema := .obj [
      ("type", .str "object"),
      ("properties", .obj [
        ("vault_id", .obj [
          ("type", .str "string"),
          ("description", .str "UUID of the vault to store the secret in")]),
        ("key", .obj [
          ("type", .str "string"),
          ("description", .str "Path/key for the secret")]),
        ("value", .obj [
          ("type", .str "string"),
          ("description", .str "The secret value to encrypt and store")]),
        ("type", .obj [
          ("type", .str "string"),
          ("description", .str "Type hint (e.g. \x27api_key\x27, \x27password\x27, \x27token\x27, \x27generic\x27)"),
          ("default", .str "generic")])]),
      ("required", .arr [.str "vault_id", .str "key", .str "value"])] }

/-- `TOOL_LIST_SECRET_KEYS` from the MCP tools source. -/
def TOOL_LIST_SECRET_KEYS : McpToolDefinition :=
  { name := "1claw_list_secret_keys",
    description :=
      "List all secret keys in a vault WITHOUT revealing their values. " ++
      "Returns metadata only: path, type, version, and timestamps.",
    inputSchema := .obj [
      ("type", .str "object"),
      ("properties", .obj [
        ("vault_id", .obj [
          ("type", .str "string"),
          ("description", .str "UUID of the vault to list secrets from")]),
        ("prefix", .obj [
          ("type", .str "string"),
          ("description", .str "Optional prefix filter for secret paths")])]),
      ("required", .arr [.str "vault_id"])] }

/-- `TOOL_DELETE_SECRET` from the MCP tools source. -/
def TOOL_DELETE_SECRET : McpToolDefinition :=
  { name := "1claw_delete_secret",
    description := "Permanently delete a secret from a 1Claw vault.",
    inputSchema := .obj [
      ("type", .str "object"),
      ("properties", .obj [
        ("vault_id", .obj [
          ("type", .str "string"),
          ("description", .str "UUID of the vault containing the secret")]),
        ("key", .obj [
          ("type", .str "string"),
          ("description", .str "Path/key of the secret to delete")])]),
      ("required", .arr [.str "vault_id", .str "key"])] }

/-- `TOOL_LIST_VAULTS` from the MCP tools source. -/
def TOOL_LIST_VAULTS : McpToolDefinition :=
  { name := "1claw_list_vaults",
    description :=
      "List all vaults accessible to the current identity. " ++
      "Returns vault names, descriptions, and IDs.",
    inputSchema := .obj [
      ("type", .str "object"),
      ("properties", .obj []),
      ("required", .arr [])] }

/-- `TOOL_CREATE_VAULT` from the MCP tools source. -/
def TOOL_CREATE_VAULT : McpToolDefinition :=
  { name := "1claw_create_vault",
    description := "Create a new encrypted vault in 1Claw.",
    inputSchema := .obj [
      ("type", .str "object"),
      ("properties", .obj [
        ("name", .obj [
          ("type", .str "string"),
          ("description", .str "Human-readable vault name")]),
        ("description", .obj [
          ("type", .str "string"),
          ("description", .str "Optional vault description")])]),
      ("required", .arr [.str "name"])] }

/-- `TOOL_REQUEST_APPROVAL` from the MCP tools source. -/
def TOOL_REQUEST_APPROVAL : McpToolDefinition :=
  { name := "1claw_request_approval",
    description :=
      "Formally request human approval to access a gated secret. " ++
      "A notification is sent to the vault owner for review.",
    inputSchema := .obj [
      ("type", .str "object"),
      ("properties", .obj [
        ("vault_id", .obj [
          ("type", .str "string"),
          ("description", .str "UUID of the vault containing the secret")]),
        ("secret_path", .obj [
          ("type", .str "string"),
          ("description", .str "Path of the secret requiring approval")]),
        ("reason", .obj [
          ("type", .str "string"),
          ("description", .str "Why the agent needs access to this secret")])]),
      ("required", .arr [.str "vault_id", .str "secret_path"])] }

/-- `TOOL_CHECK_APPROVAL` from the MCP tools source. -/
def TOOL_CHECK_APPROVAL : McpToolDefinition :=
  { name := "1claw_check_approval_status",
    description :=
      "Check the current status of a human approval request. " ++
      "Returns \x27pending\x27, \x27approved\x27, or \x27denied\x27.",
    inputSchema := .obj [
      ("type", .str "object"),
      ("properties", .obj [
        ("request_id", .obj [
          ("type", .str "string"),
          ("description", .str "UUID of the approval request to check")])]),
      ("required", .arr [.str "request_id"])] }

/-- `TOOL_PAY_AND_FETCH` from the MCP tools source. -/
def TOOL_PAY_AND_FETCH : McpToolDefinition :=
  { name := "1claw_pay_and_fetch",
    description :=
      "Pay the x402 micropayment fee and retrieve a secret. " ++
      "Use this when the free tier is exhausted and you need " ++
      "to pay for API access using USDC on Base.",
    inputSchema := .obj [
      ("type", .str "object"),
      ("properties", .obj [
        ("vault_id", .obj [
          ("type", .str "string"),
          ("description", .str "UUID of the vault containing the secret")]),
        ("key", .obj [
          ("type", .str "string"),
          ("description", .str "Path/key of the secret to fetch")])]),
      ("required", .arr [.str "vault_id", .str "key"])] }

/-- `TOOL_SHARE_SECRET` from the MCP tools source. -/
def TOOL_SHARE_SECRET : McpToolDefinition :=
  { name := "1claw_share_secret",
    description :=
      "Share a secret with another person by email. " ++
      "The recipient does NOT need a 1Claw account â€” they will see " ++
      "the shared secret when they sign up or log in. " ++
      "Use this to grant a human access to a credential.",
    inputSchema := .obj [
      ("type", .str "object"),
      ("properties", .obj [
        ("secret_id", .obj [
          ("type", .str "string"),
          ("description", .str "UUID of the secret entry to share")]),
        ("email", .obj [
          ("type", .str "string"),
          ("description", .str "Email address of the recipient")]),
        ("expires_at", .obj [
          ("type", .str "string"),
          ("description", .str "ISO-8601 expiry date for the share (e.g. \x272025-12-31T00:00:00Z\x27)")]),
        ("max_access_count", .obj [
          ("type", .str "number"),
          ("description", .str "Maximum number of times the secret can be accessed (default: 5)"),
          ("default", .num 5)])]),
      ("required", .arr [.str "secret_id", .str "email", .str "expires_at"])] }

/-- `ALL_TOOLS` from the MCP tools source. -/
def ALL_TOOLS : List McpToolDefinition := [
  TOOL_GET_SECRET,
  TOOL_SET_SECRET,
  TOOL_LIST_SECRET_KEYS,
  TOOL_DELETE_SECRET,
  TOOL_LIST_VAULTS,
  TOOL_CREATE_VAULT,
  TOOL_REQUEST_APPROVAL,
  TOOL_CHECK_APPROVAL,
  TOOL_PAY_AND_FETCH,
  TOOL_SHARE_SECRET]

/-- `getMcpToolDefinitions` from the MCP tools source. -/
def getMcpToolDefinitions (_u : Unit) : List McpToolDefinition := ALL_TOOLS

/-- Keys of a JSON object (empty for non-objects). -/
def Json.objKeys : Json → List String
  | .obj fields => fields.map Prod.fst
  | _ => []

/-- Field lookup in a JSON object. -/
def Json.lookup (j : Json) (key : String) : Option Json :=
  match j with
  | .obj fields => List.lookup key fields
  | _ => none

/-- The keys of the `properties` object of a JSON input schema. -/
def propertyKeys (schema : Json) : List String :=
  ((schema.lookup "properties").getD (.obj [])).objKeys

/-- The string entries of the `required` list of a JSON input schema. -/
def requiredKeys (schema : Json) : List String :=
  match schema.lookup "required" with
  | some (.arr xs) => xs.filterMap (fun j => match j with | .str s => some s | _ => none)
  | _ => []

/-! ## Pipeline model

The request-pipeline implementation (http.ts: credential store, error
classifier, payment negotiator, orchestrator) is not among the available
sources; the definitions below are modelled from the design document
(sections 3, 4 and 5). -/

/-- Modelled from the spec (§3, missing http.ts): the credential tagged
union — pre-authenticated token, user API key, or API key plus agent id. -/
inductive Credential where
  | preAuthenticatedToken (token : String)
  | userApiKey (key : String)
  | agentApiKey (key : String) (agentId : String)
  deriving DecidableEq

/-- Whether the credential is a pre-authenticated token. -/
def Credential.isPreAuth : Credential → Bool
  | .preAuthenticatedToken _ => true
  | _ => false

/-- Modelled from the spec (§3, missing http.ts): the cached short-lived
token with its expiry instant (instants are modelled as `Nat` seconds). -/
structure CachedToken where
  value : String
  expiresAt : Option Nat
  deriving DecidableEq

/-- Modelled from the spec (§4.1): the clock-skew margin subtracted from
the server-declared `expires_in`. -/
def clockSkewSeconds : Nat := 30

/-- Modelled from the spec (§4.1): a cached token with a recorded expiry
is expired once the current instant reaches it. -/
def CachedToken.isExpired (t : CachedToken) (now : Nat) : Bool :=
  match t.expiresAt with
  | none => false
  | some e => e ≤ now

/-- Observable effects of one pipeline call, in order of occurrence. -/
inductive ReqKind where
  | original
  | reauthRetry
  | paymentRetry
  deriving DecidableEq

/-- Trace events recorded by the pipeline model: main-request wire sends
(tagged by their role), token-exchange requests, cache invalidations and
signer invocations. -/
inductive Event where
  | wireRequest (kind : ReqKind)
  | exchangeRequest
  | invalidate
  | signerCall
  deriving DecidableEq

/-- Modelled from the spec (§4.1, missing http.ts): perform a token
exchange.  The scripted outcome `exch` is the environment response to the
exchange request; a failed exchange does not populate the cache. -/
def doExchange (now : Nat) (cache : Option CachedToken) (exch : Option TokenResponse) :
    Option String × Option CachedToken × List Event :=
  match exch with
  | some tr =>
      (some tr.access_token,
       some { value := tr.access_token,
              expiresAt := some (now + tr.expires_in - clockSkewSeconds) },
       [Event.exchangeRequest])
  | none => (none, cache, [Event.exchangeRequest])

/-- Modelled from the spec (§4.1, missing http.ts): `acquireToken`.  A
pre-authenticated token is returned verbatim; otherwise a cached
non-expired token is returned, and otherwise a token exchange is
performed (the `UserApiKey` and `AgentApiKey` exchange bodies differ on
the wire but both issue exactly one exchange request). -/
def acquireToken (cred : Credential) (now : Nat) (cache : Option CachedToken)
    (exch : Option TokenResponse) : Option String × Option CachedToken × List Event :=
  match cred with
  | .preAuthenticatedToken t => (some t, cache, [])
  | _ =>
    match cache with
    | some ct =>
        if ct.isExpired now then doExchange now cache exch
        else (some ct.value, cache, [])
    | none => doExchange now none exch

/-- Modelled from the spec (§3, §4.2, missing http.ts): the closed error
taxonomy. -/
inductive ClassifiedError where
  | auth (message : String)
  | paymentRequired (requirement : PaymentRequirement) (detail : String)
  | approvalRequired (approvalId : Option String)
  | notFound (message : String)
  | rateLimit (retryAfter : Option String)
  | validation (detail : Option String)
  | server (detail : String)
  | network (cause : String)
  deriving DecidableEq

/-- Modelled from the spec (§4.2, missing http.ts): the information the
classifier can extract from a response body — the raw text, whether it
parses into the standard envelope shape, the structured fields when it
does, and the parse of the body as a `PaymentRequirement` for 402. -/
structure ResponseBody where
  raw : String
  parsesAsEnvelope : Bool
  message : Option String
  detail : Option String
  approvalRequired : Bool
  approvalId : Option String
  paymentReq : Option PaymentRequirement
  deriving DecidableEq

/-- Modelled from the spec (§4.2): whether the body parses into the shape
expected for the status — the raw `PaymentRequirement` for 402, the
standard envelope for everything else. -/
def bodyParses (status : Nat) (body : ResponseBody) : Bool :=
  if status == 402 then body.paymentReq.isSome else body.parsesAsEnvelope

/-- Modelled from the spec (§4.2, missing http.ts): the error classifier —
a total pure mapping with the status code as primary key, falling back to
`server` with the raw body whenever the body does not parse into its
expected shape. -/
def classify (status : Nat) (body : ResponseBody) (retryAfter : Option String) :
    ClassifiedError :=
  if bodyParses status body then
    if status == 401 then .auth (body.message.getD "")
    else if status == 402 then
      match body.paymentReq with
      | some req => .paymentRequired req body.raw
      | none => .server body.raw
    else if status == 403 then
      if body.approvalRequired then .approvalRequired body.approvalId
      else .auth (body.message.getD "")
    else if status == 404 then .notFound (body.message.getD "")
    else if status == 400 || status == 422 then .validation body.detail
    else if status == 429 then .rateLimit retryAfter
    else if 500 ≤ status then .server (body.message.getD body.raw)
    else .server body.raw
  else .server body.raw

/-- Modelled from the spec (§4.3, missing http.ts): one transport outcome —
either a response with status, body and optional Retry-After header, or a
transport failure with no response. -/
inductive TransportOutcome where
  | response (status : Nat) (body : ResponseBody) (retryAfter : Option String)
  | failure (cause : String)
  deriving DecidableEq

/-- Modelled from the spec (§4.2): classification of a transport outcome;
a transport failure classifies as `network`. -/
def classifyOutcome : TransportOutcome → ClassifiedError
  | .response s b ra => classify s b ra
  | .failure c => .network c

/-! ### Payment negotiator -/

/-- Numeric value of a decimal digit character, if it is one. -/
def digitVal (c : Char) : Option Nat :=
  if c.isDigit then some (c.toNat - 48) else none

/-- Parse a non-empty digit string into a natural number; fails on any
non-digit. -/
def parseDigits (cs : List Char) : Option Nat :=
  cs.foldl
    (fun acc c =>
      match acc, digitVal c with
      | some a, some d => some (a * 10 + d)
      | _, _ => none)
    (some 0)

/-- Modelled from the spec (§4.4, missing http.ts): parse a `price` string
as a decimal USD amount — digits, optionally followed by a point and
further digits. -/
def parsePrice (s : String) : Option ℚ :=
  let cs := s.toList
  let intPart := cs.takeWhile (fun c => c ≠ '.')
  match cs.dropWhile (fun c => c ≠ '.') with
  | [] =>
      if intPart.isEmpty then none
      else (parseDigits intPart).map (fun n => (n : ℚ))
  | _ :: fracPart =>
      if intPart.isEmpty || fracPart.isEmpty then none
      else
        match parseDigits intPart, parseDigits fracPart with
        | some i, some f => some ((i : ℚ) + (f : ℚ) / ((10 : ℚ) ^ fracPart.length))
        | _, _ => none

/-- A wallet signer, modelled as its `signPayment` operation: it may
produce signature bytes or fail (rejection, timeout). -/
def Signer : Type := PaymentAccept → Option String

/-- Modelled from the spec (§4.4): select the first offer in
`requirement.accepts` whose network matches the configured network. -/
def selectOffer (network : String) (req : PaymentRequirement) : Option PaymentAccept :=
  req.accepts.find? (fun o => o.network == network)

/-- Modelled from the spec (§4.4): construct the payment payload from the
requirement, the chosen offer and the signature. -/
def mkPaymentPayload (req : PaymentRequirement) (offer : PaymentAccept)
    (signature : String) : PaymentPayload :=
  { x402Version := req.x402Version,
    scheme := offer.scheme,
    network := offer.network,
    payload := signature }

/-- Deterministic JSON encoding of a payment payload, as attached to the
payment header of the retried request. -/
def encodePayload (p : PaymentPayload) : String :=
  "\x7b\"x402Version\":" ++ toString p.x402Version ++
  ",\"scheme\":\"" ++ p.scheme ++
  "\",\"network\":\"" ++ p.network ++
  "\",\"payload\":\"" ++ p.payload ++ "\"\x7d"

/-- Outcome of payment negotiation. -/
inductive NegotiationResult where
  | payload (p : PaymentPayload)
  | unsupportedNetwork
  | policyRejected (detail : String)
  | signerFailed (detail : String)
  deriving DecidableEq

/-- Modelled from the spec (§4.4, missing http.ts): the payment
negotiator.  Returns its result together with the number of signer
invocations it performed.  Offer selection and the policy gate strictly
precede any signer invocation. -/
def negotiate (req : PaymentRequirement) (maxAutoPayUsd : ℚ) (network : String)
    (sign : Signer) : NegotiationResult × Nat :=
  match selectOffer network req with
  | none => (.unsupportedNetwork, 0)
  | some offer =>
    match parsePrice offer.price with
    | none => (.policyRejected "unparseable price", 0)
    | some p =>
      if maxAutoPayUsd < p then (.policyRejected "price exceeds maxAutoPayUsd", 0)
      else
        match sign offer with
        | none => (.signerFailed "signer failed to sign payment", 1)
        | some sig => (.payload (mkPaymentPayload req offer sig), 1)

/-! ### Request pipeline orchestration -/

/-- Modelled from the spec (§6, missing http.ts): the client
configuration surface the pipeline consumes — credential, auto-pay
ceiling, payment network and optional signer. -/
structure ClientConfig where
  credential : Credential
  maxAutoPayUsd : ℚ
  network : String
  signer : Option Signer

/-- Modelled from the spec (§3): the terminal envelope of a pipeline
call.  `data` carries the raw response body of a successful parse. -/
structure ResponseEnvelope where
  data : Option String
  error : Option ClassifiedError
  meta : Option ResponseMeta

/-- The scripted environment of one pipeline call: the transport outcomes
of the successive main-request sends and of the successive token-exchange
requests. -/
structure Env where
  responses : List TransportOutcome
  exchanges : List (Option TokenResponse)

/-- Terminal error envelope carrying a received status. -/
def errEnvelope (status : Nat) (e : ClassifiedError) : ResponseEnvelope :=
  { data := none, error := some e, meta := some { status := status, requestId := none } }

/-- Terminal error envelope when no transport response was received. -/
def noResponseEnvelope (e : ClassifiedError) : ResponseEnvelope :=
  { data := none, error := some e, meta := none }

/-- Modelled from the spec (§4.3 step 4): terminal envelope for a 2xx
response — the body parses into `data`, and a 2xx whose body does not
parse falls back to a classified `server` error. -/
def successEnvelope (status : Nat) (body : ResponseBody) : ResponseEnvelope :=
  if body.parsesAsEnvelope then
    { data := some body.raw, error := none, meta := some { status := status, requestId := none } }
  else errEnvelope status (.server body.raw)

/-- Whether a status code is a success (2xx). -/
def is2xx (s : Nat) : Bool := 200 ≤ s && s < 300

/-- Modelled from the spec (§4.3): terminal handling of the outcome of a
retried request — classify and return, never retry again (a second 401
terminates with the classified `auth` error, a second 402 terminates with
`paymentRequired` carrying the latest requirement). -/
def finishOutcome (o : TransportOutcome) : ResponseEnvelope :=
  match o with
  | .response s b ra => if is2xx s then successEnvelope s b else errEnvelope s (classify s b ra)
  | .failure c => noResponseEnvelope (.network c)

/-- `n` signer-invocation trace events. -/
def signerEvents (n : Nat) : List Event := List.replicate n Event.signerCall

/-- Modelled from the spec (§4.3 step 5, missing http.ts): handling of a
first-response 401 — invalidate the cached token, re-authenticate, and
resend the request exactly once; the outcome of the resent request is terminal. -/
def retryAfter401 (cfg : ClientConfig) (env : Env) (now : Nat) :
    ResponseEnvelope × List Event :=
  match acquireToken cfg.credential now none (env.exchanges.getD 1 none) with
  | (none, _, ev) =>
      (noResponseEnvelope (.auth "token exchange failed"), Event.invalidate :: ev)
  | (some _, _, ev) =>
      (finishOutcome (env.responses.getD 1 (.failure "no response")),
       Event.invalidate :: (ev ++ [Event.wireRequest .reauthRetry]))

/-- Modelled from the spec (§4.3 step 6 and §4.4, missing http.ts):
handling of a first-response 402 whose body parsed into a requirement —
negotiate under policy; on a constructed payload resend the request
exactly once with the payment attached, otherwise terminate with a
`paymentRequired` error and no resend. -/
def retryPayment (cfg : ClientConfig) (env : Env) (status : Nat)
    (req : PaymentRequirement) : ResponseEnvelope × List Event :=
  match cfg.signer with
  | none => (errEnvelope status (.paymentRequired req "no signer configured"), [])
  | some sign =>
    match negotiate req cfg.maxAutoPayUsd cfg.network sign with
    | (.payload _, n) =>
        (finishOutcome (env.responses.getD 1 (.failure "no response")),
         signerEvents n ++ [Event.wireRequest .paymentRetry])
    | (.unsupportedNetwork, n) =>
        (errEnvelope status (.paymentRequired req "unsupported network"), signerEvents n)
    | (.policyRejected d, n) =>
        (errEnvelope status (.paymentRequired req d), signerEvents n)
    | (.signerFailed d, n) =>
        (errEnvelope status (.paymentRequired req d), signerEvents n)

/-- Modelled from the spec (§4.3, missing http.ts): dispatch on the
outcome of the original request — success, one reauth retry, one payment
retry, or a terminal classified error; the two retries are mutually
exclusive. -/
def handleFirst (cfg : ClientConfig) (env : Env) (now : Nat)
    (o : TransportOutcome) : ResponseEnvelope × List Event :=
  match o with
  | .failure c => (noResponseEnvelope (.network c), [])
  | .response s b ra =>
    if is2xx s then (successEnvelope s b, [])
    else if s == 401 then retryAfter401 cfg env now
    else if s == 402 then
      match b.paymentReq with
      | none => (errEnvelope s (.server b.raw), [])
      | some req => retryPayment cfg env s req
    else (errEnvelope s (classify s b ra), [])

/-- Modelled from the spec (§4.3, missing http.ts): the single
`execute` operation of the pipeline — acquire a token, send the request, and apply the
bounded retry state machine.  Returns the terminal envelope together with
the ordered trace of observable events. -/
def execute (cfg : ClientConfig) (cache0 : Option CachedToken) (env : Env)
    (now : Nat) : ResponseEnvelope × List Event :=
  match acquireToken cfg.credential now cache0 (env.exchanges.getD 0 none) with
  | (none, _, ev) => (noResponseEnvelope (.auth "token exchange failed"), ev)
  | (some _, _, ev) =>
    ((handleFirst cfg env now (env.responses.getD 0 (.failure "no response"))).1,
     ev ++ Event.wireRequest .original ::
       (handleFirst cfg env now (env.responses.getD 0 (.failure "no response"))).2)

/-- An envelope is a proper terminal result when exactly one of its `data`
and `error` fields is non-null. -/
def ResponseEnvelope.exclusiveResult (r : ResponseEnvelope) : Prop :=
  (r.data.isSome = true ∧ r.error = none) ∨ (r.data = none ∧ r.error.isSome = true)

/-- Whether an event is a main-request wire send. -/
def Event.isWire : Event → Bool
  | .wireRequest _ => true
  | _ => false

/-- Number of main-request wire sends in a trace. -/
def wireCount (evs : List Event) : Nat := evs.countP Event.isWire

/-! ### Single-flight token exchange

Modelled from the spec (§4.1 and §5, missing http.ts): concurrent callers
that discover an absent/expired token coalesce onto one exchange. -/

/-- Modelled from the spec (§4.1, §5): credential-store state during a
single-flight exchange — the cache, whether an exchange is in flight, the
callers waiting on it, and the number of exchange requests issued. -/
structure SFState where
  cache : Option String
  inflight : Bool
  waiters : List Nat
  exchangesIssued : Nat

/-- The store state with an empty cache and no exchange in flight. -/
def sfInit : SFState :=
  { cache := none, inflight := false, waiters := [], exchangesIssued := 0 }

/-- Modelled from the spec (§4.1, §5): one caller discovers the token
state.  Pre-authenticated credentials never exchange; a caller seeing a
cached token takes it; a caller seeing an in-flight exchange joins its
waiters; otherwise the caller starts the single exchange. -/
def sfDiscover (cred : Credential) (caller : Nat) (s : SFState) : SFState :=
  if cred.isPreAuth then s
  else
    match s.cache with
    | some _ => s
    | none =>
      if s.inflight then { s with waiters := s.waiters ++ [caller] }
      else
        { s with inflight := true, waiters := [caller],
                 exchangesIssued := s.exchangesIssued + 1 }

/-- Modelled from the spec (§4.1, §5): run the discovery phase for all
concurrent callers (in arrival order), then complete the in-flight
exchange with `result` and deliver it to every waiter.  Returns the
number of exchange requests issued and the per-caller delivered results. -/
def sfRun (cred : Credential) (callers : List Nat) (result : Option String) :
    Nat × List (Nat × Option String) :=
  ((callers.foldl (fun st c => sfDiscover cred c st) sfInit).exchangesIssued,
   (callers.foldl (fun st c => sfDiscover cred c st) sfInit).waiters.map
     (fun c => (c, result)))

/-! ### Concrete fixtures used by witness theorems -/

/-- A concrete payment offer on the default network. -/
def offerW : PaymentAccept :=
  { scheme := "exact", network := "eip155:8453", payTo := "0x1", price := "2",
    requiredDeadlineSeconds := 60 }

/-- A concrete payment requirement with a single offer. -/
def reqW : PaymentRequirement :=
  { x402Version := 1, accepts := [offerW], description := "paid endpoint" }

/-- A concrete 402 body carrying `reqW`. -/
def bodyW402 : ResponseBody :=
  { raw := "requirement", parsesAsEnvelope := false, message := none, detail := none,
    approvalRequired := false, approvalId := none, paymentReq := some reqW }

/-- A concrete parseable 401 body. -/
def body401 : ResponseBody :=
  { raw := "auth error", parsesAsEnvelope := true, message := some "invalid token",
    detail := none, approvalRequired := false, approvalId := none, paymentReq := none }

/-- A concrete parseable generic body. -/
def bodyOkW : ResponseBody :=
  { raw := "ok", parsesAsEnvelope := true, message := some "m", detail := some "d",
    approvalRequired := false, approvalId := none, paymentReq := none }

/-- A concrete unparseable body. -/
def bodyBadW : ResponseBody :=
  { raw := "garbage", parsesAsEnvelope := false, message := none, detail := none,
    approvalRequired := false, approvalId := none, paymentReq := none }

/-- A concrete token-exchange response. -/
def tokenW : TokenResponse :=
  { access_token := "tok", token_type := "bearer", expires_in := 3600,
    refresh_token := none }

/-- A concrete client configuration with auto-pay disabled (the default). -/
def cfgW : ClientConfig :=
  { credential := .userApiKey "k1", maxAutoPayUsd := 0, network := "eip155:8453",
    signer := some (fun _ => some "sig") }

/-- A scripted environment answering 402 to the original request. -/
def envPayW : Env :=
  { responses := [.response 402 bodyW402 none], exchanges := [some tokenW] }

/-- A scripted environment answering 401 to both requests. -/
def env401W : Env :=
  { responses := [.response 401 body401 none, .response 401 body401 none],
    exchanges := [some tokenW, some tokenW] }

/-- A concrete HTTP client whose responses carry no payload. -/
def httpW : HttpClient :=
  ⟨fun _ _ _ _ => { data := none, error := none, meta := none }⟩

/-- A concrete share-creation request. -/
def shareReqW : CreateShareRequest :=
  { recipient_type := "email", recipient_id := some "a@b.c", permissions := none,
    max_access_count := none, expires_at := "2025-12-31T00:00:00Z",
    passphrase := none, ip_allowlist := none }

/-! ## Helper lemmas -/

theorem doExchange_events (now : Nat) (cache : Option CachedToken)
    (exch : Option TokenResponse) :
    (doExchange now cache exch).2.2 = [Event.exchangeRequest] := by
  cases exch <;> rfl

theorem acquireToken_events (cred : Credential) (now : Nat)
    (cache : Option CachedToken) (exch : Option TokenResponse) :
    (acquireToken cred now cache exch).2.2 = [] ∨
    (acquireToken cred now cache exch).2.2 = [Event.exchangeRequest] := by
  cases cred with
  | preAuthenticatedToken t => exact Or.inl rfl
  | userApiKey k =>
    cases cache with
    | none => exact Or.inr (doExchange_events now none exch)
    | some ct =>
      by_cases h : ct.isExpired now = true
      · simp only [acquireToken, h, if_true]
        exact Or.inr (doExchange_events now (some ct) exch)
      · simp only [acquireToken, h, if_false]
        exact Or.inl rfl
  | agentApiKey k a =>
    cases cache with
    | none => exact Or.inr (doExchange_events now none exch)
    | some ct =>
      by_cases h : ct.isExpired now = true
      · simp only [acquireToken, h, if_true]
        exact Or.inr (doExchange_events now (some ct) exch)
      · simp only [acquireToken, h, if_false]
        exact Or.inl rfl

theorem acquireToken_mem (cred : Credential) (now : Nat)
    (cache : Option CachedToken) (exch : Option TokenResponse) :
    ∀ e ∈ (acquireToken cred now cache exch).2.2, e = Event.exchangeRequest := by
  intro e he
  rcases acquireToken_events cred now cache exch with h | h <;> rw [h] at he <;>
    simp_all

theorem wireCount_acquireToken (cred : Credential) (now : Nat)
    (cache : Option CachedToken) (exch : Option TokenResponse) :
    wireCount (acquireToken cred now cache exch).2.2 = 0 := by
  rcases acquireToken_events cred now cache exch with h | h <;>
    simp [wireCount, h, Event.isWire]

theorem signerEvents_mem (n : Nat) :
    ∀ e ∈ signerEvents n, e = Event.signerCall := by
  intro e he
  exact List.eq_of_mem_replicate he

theorem wireCount_signerEvents (n : Nat) : wireCount (signerEvents n) = 0 := by
  rw [wireCount, List.countP_eq_zero]
  intro e he
  rw [signerEvents_mem n e he]
  simp [Event.isWire]

theorem negotiate_signer_le_one (req : PaymentRequirement) (maxAutoPayUsd : ℚ)
    (network : String) (sign : Signer) :
    (negotiate req maxAutoPayUsd network sign).2 ≤ 1 := by
  unfold negotiate
  rcases selectOffer network req with _ | offer
  · exact Nat.zero_le 1
  · simp only
    rcases parsePrice offer.price with _ | p
    · exact Nat.zero_le 1
    · simp only
      by_cases h : maxAutoPayUsd < p
      · rw [if_pos h]; exact Nat.zero_le 1
      · rw [if_neg h]
        rcases sign offer with _ | sig <;> exact Nat.le_refl 1

/-! ## Claim theorems -/

/-- C10: `getMcpToolDefinitions` is a pure constant function returning the
fixed `ALL_TOOLS` list of exactly 10 tool definitions with pairwise
distinct names, and in every definition each entry of the `required` list of the input
schema is a key of its `properties` object. -/
theorem mcp_tool_definitions_constant :
    (∀ u : Unit, getMcpToolDefinitions u = ALL_TOOLS) ∧
    ALL_TOOLS.length = 10 ∧
    (ALL_TOOLS.map McpToolDefinition.name).Nodup ∧
    ∀ t ∈ ALL_TOOLS, ∀ k ∈ requiredKeys t.inputSchema, k ∈ propertyKeys t.inputSchema := by
  refine ⟨fun _ => rfl, rfl, by decide, by decide⟩

/-- C10 witness: the theorem applied to `TOOL_GET_SECRET` and the required
key `vault_id`. -/
theorem mcp_tool_definitions_constant_witness :
    "vault_id" ∈ propertyKeys TOOL_GET_SECRET.inputSchema :=
  mcp_tool_definitions_constant.2.2.2 TOOL_GET_SECRET (List.mem_cons_self _ _) "vault_id" (by decide)

/-- C9: every method of the `SharingResource` and `AgentsResource` proxies
performs exactly one call to the request operation of the pipeline, with a
fixed HTTP method and path, and returns the resulting envelope unchanged;
the proxies contain no retry, authentication or payment logic of their
own. -/
theorem proxies_single_request :
    ∀ (r : SharingResource) (ra : AgentsResource) (secretId shareId agentId : String)
      (share : CreateShareRequest) (co : CreateAgentRequest) (uo : UpdateAgentRequest),
      r.create secretId share =
        r.http.request ShareResponse "POST" ("/v1/secrets/" ++ secretId ++ "/share")
          (some (.share share)) ∧
      r.access shareId =
        r.http.request SecretResponse "GET" ("/v1/share/" ++ shareId) none ∧
      r.revoke shareId =
        r.http.request Unit "DELETE" ("/v1/share/" ++ shareId) none ∧
      ra.create co =
        ra.http.request AgentCreatedResponse "POST" "/v1/agents" (some (.createAgent co)) ∧
      ra.get agentId =
        ra.http.request AgentResponse "GET" ("/v1/agents/" ++ agentId) none ∧
      ra.list =
        ra.http.request AgentListResponse "GET" "/v1/agents" none ∧
      ra.update agentId uo =
        ra.http.request AgentResponse "PATCH" ("/v1/agents/" ++ agentId)
          (some (.updateAgent uo)) ∧
      ra.delete agentId =
        ra.http.request Unit "DELETE" ("/v1/agents/" ++ agentId) none ∧
      ra.rotateKey agentId =
        ra.http.request AgentKeyRotatedResponse "POST"
          ("/v1/agents/" ++ agentId ++ "/rotate-key") none :=
  fun _ _ _ _ _ _ _ _ => ⟨rfl, rfl, rfl, rfl, rfl, rfl, rfl, rfl, rfl⟩

/-- C8: the constructed payment payload is exactly
`(requirement.x402Version, offer.scheme, offer.network, signature)`, and
its encoding is byte-identical across repeated constructions from equal
inputs — the construction is deterministic. -/
theorem payment_payload_deterministic :
    ∀ (req : PaymentRequirement) (offer : PaymentAccept) (sig : String),
      mkPaymentPayload req offer sig =
        { x402Version := req.x402Version, scheme := offer.scheme,
          network := offer.network, payload := sig } ∧
      ∀ (req2 : PaymentRequirement) (offer2 : PaymentAccept) (sig2 : String),
        req.x402Version = req2.x402Version → offer.scheme = offer2.scheme →
        offer.network = offer2.network → sig = sig2 →
        encodePayload (mkPaymentPayload req offer sig) =
          encodePayload (mkPaymentPayload req2 offer2 sig2) := by
  intro req offer sig
  refine ⟨rfl, ?_⟩
  intro req2 offer2 sig2 h1 h2 h3 h4
  simp [encodePayload, mkPaymentPayload, h1, h2, h3, h4]

/-- C8 witness: the theorem applied to the concrete fixture requirement,
offer and signature. -/
theorem payment_payload_deterministic_witness :
    mkPaymentPayload reqW offerW "sig" =
      { x402Version := reqW.x402Version, scheme := offerW.scheme,
        network := offerW.network, payload := "sig" } ∧
    encodePayload (mkPaymentPayload reqW offerW "sig") =
      encodePayload (mkPaymentPayload reqW offerW "sig") :=
  ⟨(payment_payload_deterministic reqW offerW "sig").1,
   (payment_payload_deterministic reqW offerW "sig").2 reqW offerW "sig" rfl rfl rfl rfl⟩

/-- C4: the error classifier is a total pure function realising the fixed
status-code table — 401 to `auth`, 402 to `paymentRequired` with the
parsed requirement, 403 with the approval flag to `approvalRequired`, any
other 403 to `auth`, 404 to `notFound`, 400/422 to `validation`, 429 to
`rateLimit`, any status at or above 500 to `server`, transport failure to
`network` — and any status/body combination whose body does not parse
into its expected shape yields a `server` error carrying the raw body,
never an unhandled fault. -/
theorem classify_total_mapping :
    ∀ (body : ResponseBody) (ra : Option String),
      (body.parsesAsEnvelope = true →
        classify 401 body ra = .auth (body.message.getD "")) ∧
      (∀ req, body.paymentReq = some req →
        classify 402 body ra = .paymentRequired req body.raw) ∧
      (body.parsesAsEnvelope = true → body.approvalRequired = true →
        classify 403 body ra = .approvalRequired body.approvalId) ∧
      (body.parsesAsEnvelope = true → body.approvalRequired = false →
        classify 403 body ra = .auth (body.message.getD "")) ∧
      (body.parsesAsEnvelope = true →
        classify 404 body ra = .notFound (body.message.getD "")) ∧
      (body.parsesAsEnvelope = true →
        classify 400 body ra = .validation body.detail) ∧
      (body.parsesAsEnvelope = true →
        classify 422 body ra = .validation body.detail) ∧
      (body.parsesAsEnvelope = true →
        classify 429 body ra = .rateLimit ra) ∧
      (∀ s, body.parsesAsEnvelope = true → 500 ≤ s →
        classify s body ra = .server (body.message.getD body.raw)) ∧
      (∀ s, bodyParses s body = false → classify s body ra = .server body.raw) ∧
      (∀ cause, classifyOutcome (.failure cause) = .network cause) := by
  intro body ra
  refine ⟨?_, ?_, ?_, ?_, ?_, ?_, ?_, ?_, ?_, ?_, fun _ => rfl⟩
  · intro h; simp [classify, bodyParses, h]
  · intro req h; simp [classify, bodyParses, h]
  · intro h1 h2; simp [classify, bodyParses, h1, h2]
  · intro h1 h2; simp [classify, bodyParses, h1, h2]
  · intro h; simp [classify, bodyParses, h]
  · intro h; simp [classify, bodyParses, h]
  · intro h; simp [classify, bodyParses, h]
  · intro h; simp [classify, bodyParses, h]
  · intro s h1 h5
    have h401 : (s == 401) = false := by simp only [beq_eq_false_iff_ne]; omega
    have h402 : (s == 402) = false := by simp only [beq_eq_false_iff_ne]; omega
    have h403 : (s == 403) = false := by simp only [beq_eq_false_iff_ne]; omega
    have h404 : (s == 404) = false := by simp only [beq_eq_false_iff_ne]; omega
    have h400 : (s == 400) = false := by simp only [beq_eq_false_iff_ne]; omega
    have h422 : (s == 422) = false := by simp only [beq_eq_false_iff_ne]; omega
    have h429 : (s == 429) = false := by simp only [beq_eq_false_iff_ne]; omega
    simp [classify, bodyParses, h1, h401, h402, h403, h404, h400, h422, h429, h5]
  · intro s h; simp [classify, h]

/-- C4 witness: the classifier rows evaluated at concrete bodies — a
parseable 401, a 402 with a parsed requirement, a parseable 500, an
unparseable status 123, and a transport failure. -/
theorem classify_total_mapping_witness :
    classify 401 bodyOkW none = .auth (bodyOkW.message.getD "") ∧
    classify 402 bodyW402 none = .paymentRequired reqW bodyW402.raw ∧
    classify 500 bodyOkW none = .server (bodyOkW.message.getD bodyOkW.raw) ∧
    classify 123 bodyBadW none = .server bodyBadW.raw ∧
    classifyOutcome (.failure "dns") = .network "dns" :=
  ⟨(classify_total_mapping bodyOkW none).1 rfl,
   (classify_total_mapping bodyW402 none).2.1 reqW rfl,
   (classify_total_mapping bodyOkW none).2.2.2.2.2.2.2.2.1 500 rfl (by decide),
   (classify_total_mapping bodyBadW none).2.2.2.2.2.2.2.2.2.1 123 rfl,
   (classify_total_mapping bodyOkW none).2.2.2.2.2.2.2.2.2.2 "dns"⟩

theorem find?_first_match {α : Type} (p : α → Bool) :
    ∀ (l : List α) (o : α), l.find? p = some o →
      p o = true ∧ ∃ l1 l2, l = l1 ++ o :: l2 ∧ ∀ x ∈ l1, p x = false := by
  intro l
  induction l with
  | nil => intro o h; simp at h
  | cons a rest ih =>
    intro o h
    rcases hp : p a with _ | _
    · simp only [List.find?, hp] at h
      obtain ⟨hpo, l1, l2, heq, hall⟩ := ih o h
      refine ⟨hpo, a :: l1, l2, by rw [heq]; rfl, ?_⟩
      intro x hx
      rcases List.mem_cons.mp hx with hx | hx
      · rw [hx]; exact hp
      · exact hall x hx
    · simp only [List.find?, hp] at h
      obtain rfl : a = o := Option.some.inj h
      exact ⟨hp, [], rest, rfl, by intro x hx; simp at hx⟩

/-- C7: the payment negotiator selects the first offer in
`requirement.accepts` whose network equals the configured network, and
when no offer matches, negotiation fails as unsupported-network with zero
signer invocations. -/
theorem offer_selection_spec :
    ∀ (net : String) (req : PaymentRequirement),
      (∀ o, selectOffer net req = some o →
        o.network = net ∧
        ∃ l1 l2, req.accepts = l1 ++ o :: l2 ∧ ∀ x ∈ l1, x.network ≠ net) ∧
      (selectOffer net req = none →
        (∀ x ∈ req.accepts, x.network ≠ net) ∧
        ∀ (maxAutoPayUsd : ℚ) (sign : Signer),
          negotiate req maxAutoPayUsd net sign = (.unsupportedNetwork, 0)) := by
  intro net req
  constructor
  · intro o h
    obtain ⟨hpo, l1, l2, heq, hall⟩ := find?_first_match _ req.accepts o h
    refine ⟨by simpa using hpo, l1, l2, heq, ?_⟩
    intro x hx
    simpa using hall x hx
  · intro h
    constructor
    · intro x hx
      simpa using List.find?_eq_none.mp h x hx
    · intro m sign
      simp only [negotiate, h]

/-- C7 witness: the theorem applied to the fixture requirement — on the
matching network it selects `offerW` first; on an unsupported network the
negotiation fails with zero signer invocations. -/
theorem offer_selection_spec_witness :
    (offerW.network = "eip155:8453" ∧
      ∃ l1 l2, reqW.accepts = l1 ++ offerW :: l2 ∧
        ∀ x ∈ l1, x.network ≠ "eip155:8453") ∧
    negotiate reqW 0 "unsupported:net" (fun _ => some "sig") = (.unsupportedNetwork, 0) :=
  ⟨(offer_selection_spec "eip155:8453" reqW).1 offerW (by decide),
   ((offer_selection_spec "unsupported:net" reqW).2 (by decide)).2 0 (fun _ => some "sig")⟩

theorem wireCount_append (l1 l2 : List Event) :
    wireCount (l1 ++ l2) = wireCount l1 + wireCount l2 := by
  simp [wireCount, List.countP_append]

theorem wireCount_cons (e : Event) (l : List Event) :
    wireCount (e :: l) = wireCount l + (if e.isWire then 1 else 0) := by
  simp [wireCount, List.countP_cons]

theorem wireCount_eq_zero_of_exchange (l : List Event)
    (h : ∀ e ∈ l, e = Event.exchangeRequest) : wireCount l = 0 := by
  rw [wireCount, List.countP_eq_zero]
  intro e he
  rw [h e he]
  simp [Event.isWire]

theorem wire_not_mem_of_exchange (l : List Event) (k : ReqKind)
    (h : ∀ e ∈ l, e = Event.exchangeRequest) : Event.wireRequest k ∉ l := by
  intro hm
  exact absurd (h _ hm) (by simp)

theorem signer_not_mem_of_exchange (l : List Event)
    (h : ∀ e ∈ l, e = Event.exchangeRequest) : Event.signerCall ∉ l := by
  intro hm
  exact absurd (h _ hm) (by simp)

theorem retryAfter401_events (cfg : ClientConfig) (env : Env) (now : Nat) :
    wireCount (retryAfter401 cfg env now).2 ≤ 1 ∧
    Event.wireRequest .paymentRetry ∉ (retryAfter401 cfg env now).2 := by
  rcases hA : acquireToken cfg.credential now none (env.exchanges.getD 1 none) with ⟨t, c, ev⟩
  have hev := acquireToken_mem cfg.credential now none (env.exchanges.getD 1 none)
  rw [hA] at hev
  simp only at hev
  unfold retryAfter401
  rw [hA]
  cases t with
  | none =>
    refine ⟨?_, ?_⟩
    · simp only
      rw [wireCount_cons, wireCount_eq_zero_of_exchange ev hev]
      simp [Event.isWire]
    · simp only [List.mem_cons]
      rintro (h | h)
      · exact absurd h (by simp)
      · exact wire_not_mem_of_exchange ev _ hev h
  | some tok =>
    refine ⟨?_, ?_⟩
    · simp only
      rw [wireCount_cons, wireCount_append, wireCount_eq_zero_of_exchange ev hev]
      simp [Event.isWire, wireCount]
    · simp only [List.mem_cons, List.mem_append]
      rintro (h | h | h)
      · exact absurd h (by simp)
      · exact wire_not_mem_of_exchange ev _ hev h
      · simp at h

theorem retryPayment_events (cfg : ClientConfig) (env : Env) (s : Nat)
    (req : PaymentRequirement) :
    wireCount (retryPayment cfg env s req).2 ≤ 1 ∧
    Event.wireRequest .reauthRetry ∉ (retryPayment cfg env s req).2 := by
  unfold retryPayment
  split
  · exact ⟨by simp [wireCount], by simp⟩
  · split
    · refine ⟨?_, ?_⟩
      · rw [wireCount_append, wireCount_signerEvents]
        simp [wireCount, Event.isWire]
      · simp only [List.mem_append, List.mem_cons]
        rintro (h | h)
        · exact absurd (signerEvents_mem _ _ h) (by simp)
        · simp at h
    · refine ⟨?_, ?_⟩
      · rw [wireCount_signerEvents]
        omega
      · intro h
        exact absurd (signerEvents_mem _ _ h) (by simp)
    · refine ⟨?_, ?_⟩
      · rw [wireCount_signerEvents]
        omega
      · intro h
        exact absurd (signerEvents_mem _ _ h) (by simp)
    · refine ⟨?_, ?_⟩
      · rw [wireCount_signerEvents]
        omega
      · intro h
        exact absurd (signerEvents_mem _ _ h) (by simp)

theorem handleFirst_events (cfg : ClientConfig) (env : Env) (now : Nat)
    (o : TransportOutcome) :
    wireCount (handleFirst cfg env now o).2 ≤ 1 ∧
    (Event.wireRequest .reauthRetry ∉ (handleFirst cfg env now o).2 ∨
     Event.wireRequest .paymentRetry ∉ (handleFirst cfg env now o).2) := by
  unfold handleFirst
  split
  · exact ⟨by simp [wireCount], Or.inl (by simp)⟩
  · split
    · exact ⟨by simp [wireCount], Or.inl (by simp)⟩
    · split
      · exact ⟨(retryAfter401_events cfg env now).1,
               Or.inr (retryAfter401_events cfg env now).2⟩
      · split
        · split
          · exact ⟨by simp [wireCount], Or.inl (by simp)⟩
          · exact ⟨(retryPayment_events cfg env _ _).1,
                   Or.inl (retryPayment_events cfg env _ _).2⟩
        · exact ⟨by simp [wireCount], Or.inl (by simp)⟩

/-- C1: for every logical call through the `execute` operation of the
pipeline, at most 3 main-request wire sends occur (the original plus at
most one retry), and a reauth retry and a payment retry never both occur
within one call. -/
theorem execute_wire_bound :
    ∀ (cfg : ClientConfig) (cache0 : Option CachedToken) (env : Env) (now : Nat),
      wireCount (execute cfg cache0 env now).2 ≤ 3 ∧
      (Event.wireRequest .reauthRetry ∉ (execute cfg cache0 env now).2 ∨
       Event.wireRequest .paymentRetry ∉ (execute cfg cache0 env now).2) := by
  intro cfg cache0 env now
  unfold execute
  split
  · rename_i c ev heq
    have hev := acquireToken_mem cfg.credential now cache0 (env.exchanges.getD 0 none)
    rw [heq] at hev
    simp only at hev
    refine ⟨?_, Or.inl ?_⟩
    · rw [wireCount_eq_zero_of_exchange ev hev]
      omega
    · exact wire_not_mem_of_exchange ev _ hev
  · rename_i tok c ev heq
    have hev := acquireToken_mem cfg.credential now cache0 (env.exchanges.getD 0 none)
    rw [heq] at hev
    simp only at hev
    obtain ⟨hcount, hmem⟩ :=
      handleFirst_events cfg env now (env.responses.getD 0 (.failure "no response"))
    refine ⟨?_, ?_⟩
    · rw [wireCount_append, wireCount_cons, wireCount_eq_zero_of_exchange ev hev]
      simp only [Event.isWire, if_true]
      omega
    · rcases hmem with hmem | hmem
      · refine Or.inl ?_
        simp only [List.mem_append, List.mem_cons]
        rintro (h | h | h)
        · exact wire_not_mem_of_exchange ev _ hev h
        · exact absurd h (by simp)
        · exact hmem h
      · refine Or.inr ?_
        simp only [List.mem_append, List.mem_cons]
        rintro (h | h | h)
        · exact wire_not_mem_of_exchange ev _ hev h
        · exact absurd h (by simp)
        · exact hmem h

theorem errEnvelope_exclusive (s : Nat) (e : ClassifiedError) :
    (errEnvelope s e).exclusiveResult :=
  Or.inr ⟨rfl, rfl⟩

theorem noResponseEnvelope_exclusive (e : ClassifiedError) :
    (noResponseEnvelope e).exclusiveResult :=
  Or.inr ⟨rfl, rfl⟩

theorem successEnvelope_exclusive (s : Nat) (b : ResponseBody) :
    (successEnvelope s b).exclusiveResult := by
  unfold successEnvelope
  by_cases h : b.parsesAsEnvelope = true
  · rw [if_pos h]
    exact Or.inl ⟨rfl, rfl⟩
  · rw [if_neg h]
    exact errEnvelope_exclusive _ _

theorem finishOutcome_exclusive (o : TransportOutcome) :
    (finishOutcome o).exclusiveResult := by
  unfold finishOutcome
  split
  · split
    · exact successEnvelope_exclusive _ _
    · exact errEnvelope_exclusive _ _
  · exact noResponseEnvelope_exclusive _

theorem retryAfter401_exclusive (cfg : ClientConfig) (env : Env) (now : Nat) :
    (retryAfter401 cfg env now).1.exclusiveResult := by
  unfold retryAfter401
  split
  · exact noResponseEnvelope_exclusive _
  · exact finishOutcome_exclusive _

theorem retryPayment_exclusive (cfg : ClientConfig) (env : Env) (s : Nat)
    (req : PaymentRequirement) :
    (retryPayment cfg env s req).1.exclusiveResult := by
  unfold retryPayment
  split
  · exact errEnvelope_exclusive _ _
  · split
    · exact finishOutcome_exclusive _
    · exact errEnvelope_exclusive _ _
    · exact errEnvelope_exclusive _ _
    · exact errEnvelope_exclusive _ _

theorem handleFirst_exclusive (cfg : ClientConfig) (env : Env) (now : Nat)
    (o : TransportOutcome) :
    (handleFirst cfg env now o).1.exclusiveResult := by
  unfold handleFirst
  split
  · exact noResponseEnvelope_exclusive _
  · split
    · exact successEnvelope_exclusive _ _
    · split
      · exact retryAfter401_exclusive cfg env now
      · split
        · split
          · exact errEnvelope_exclusive _ _
          · exact retryPayment_exclusive cfg env _ _
        · exact errEnvelope_exclusive _ _

/-- C6: every terminal envelope returned by the `execute`
operation of the pipeline has exactly one of its `data` and `error` fields non-null —
never both non-null and never both null. -/
theorem execute_envelope_exclusive :
    ∀ (cfg : ClientConfig) (cache0 : Option CachedToken) (env : Env) (now : Nat),
      (execute cfg cache0 env now).1.exclusiveResult := by
  intro cfg cache0 env now
  unfold execute
  split
  · exact noResponseEnvelope_exclusive _
  · exact handleFirst_exclusive cfg env now _

theorem classify_401_auth (body : ResponseBody) (ra : Option String)
    (h : body.parsesAsEnvelope = true) :
    classify 401 body ra = .auth (body.message.getD "") := by
  simp [classify, bodyParses, h]

theorem negotiate_policy_rejected (req : PaymentRequirement) (m : ℚ) (net : String)
    (sign : Signer) (offer : PaymentAccept) (p : ℚ)
    (hoffer : selectOffer net req = some offer)
    (hprice : parsePrice offer.price = some p) (hpol : m < p) :
    negotiate req m net sign = (.policyRejected "price exceeds maxAutoPayUsd", 0) := by
  unfold negotiate
  split
  · rename_i heq
    rw [hoffer] at heq
    exact Option.noConfusion heq
  · rename_i offer2 heq
    rw [hoffer] at heq
    obtain rfl : offer2 = offer := (Option.some.inj heq).symm
    split
    · rename_i hpq
      rw [hprice] at hpq
      exact Option.noConfusion hpq
    · rename_i p2 hpq
      rw [hprice] at hpq
      obtain rfl : p2 = p := (Option.some.inj hpq).symm
      rw [if_pos hpol]

theorem retryPayment_policy (cfg : ClientConfig) (env : Env) (s : Nat)
    (req : PaymentRequirement) (offer : PaymentAccept) (p : ℚ)
    (hoffer : selectOffer cfg.network req = some offer)
    (hprice : parsePrice offer.price = some p)
    (hpol : cfg.maxAutoPayUsd < p) :
    Event.signerCall ∉ (retryPayment cfg env s req).2 ∧
    ∃ d, (retryPayment cfg env s req).1.error = some (.paymentRequired req d) := by
  unfold retryPayment
  split
  · exact ⟨by simp, ⟨"no signer configured", rfl⟩⟩
  · rename_i sign hs
    split
    · rename_i p2 n heq
      rw [negotiate_policy_rejected req cfg.maxAutoPayUsd cfg.network sign offer p
        hoffer hprice hpol] at heq
      simp at heq
    · rename_i n heq
      rw [negotiate_policy_rejected req cfg.maxAutoPayUsd cfg.network sign offer p
        hoffer hprice hpol] at heq
      simp at heq
    · rename_i d n heq
      rw [negotiate_policy_rejected req cfg.maxAutoPayUsd cfg.network sign offer p
        hoffer hprice hpol] at heq
      simp only [Prod.mk.injEq, NegotiationResult.policyRejected.injEq] at heq
      obtain ⟨h1, h2⟩ := heq
      subst h1
      subst h2
      refine ⟨by simp [signerEvents], ⟨"price exceeds maxAutoPayUsd", rfl⟩⟩
    · rename_i d n heq
      rw [negotiate_policy_rejected req cfg.maxAutoPayUsd cfg.network sign offer p
        hoffer hprice hpol] at heq
      simp at heq

/-- C2: whenever the original request draws a 402 where the price of
the selected offer parses to an amount strictly above the configured `maxAutoPayUsd`,
the pipeline performs zero signer invocations and terminates with a
`paymentRequired` error — the policy gate strictly precedes the signer. -/
theorem policy_gate_no_signer :
    ∀ (cfg : ClientConfig) (cache0 : Option CachedToken) (env : Env) (now : Nat)
      (b : ResponseBody) (ra : Option String) (req : PaymentRequirement)
      (offer : PaymentAccept) (p : ℚ),
      (acquireToken cfg.credential now cache0 (env.exchanges.getD 0 none)).1.isSome = true →
      env.responses.getD 0 (.failure "no response") = .response 402 b ra →
      b.paymentReq = some req →
      selectOffer cfg.network req = some offer →
      parsePrice offer.price = some p →
      cfg.maxAutoPayUsd < p →
      Event.signerCall ∉ (execute cfg cache0 env now).2 ∧
      ∃ d, (execute cfg cache0 env now).1.error = some (.paymentRequired req d) := by
  intro cfg cache0 env now b ra req offer p hacq hresp hreq hoffer hprice hpol
  have hHF : handleFirst cfg env now (env.responses.getD 0 (.failure "no response")) =
      retryPayment cfg env 402 req := by
    rw [hresp]
    simp [handleFirst, is2xx, hreq]
  unfold execute
  split
  · rename_i c ev heq
    rw [heq] at hacq
    simp at hacq
  · rename_i tok c ev heq
    have hev := acquireToken_mem cfg.credential now cache0 (env.exchanges.getD 0 none)
    rw [heq] at hev
    simp only at hev
    rw [hHF]
    obtain ⟨hsig, d, herr⟩ := retryPayment_policy cfg env 402 req offer p hoffer hprice hpol
    refine ⟨?_, ⟨d, herr⟩⟩
    simp only [List.mem_append, List.mem_cons]
    rintro (h | h | h)
    · exact absurd (hev _ h) (by simp)
    · exact absurd h (by simp)
    · exact hsig h

/-- C2 witness: the default policy (`maxAutoPayUsd = 0`) rejects the
fixture 402 whose offer price is 2 USD — no signer invocation, terminal
`paymentRequired`. -/
theorem policy_gate_no_signer_witness :
    Event.signerCall ∉ (execute cfgW none envPayW 0).2 ∧
    ∃ d, (execute cfgW none envPayW 0).1.error = some (.paymentRequired reqW d) :=
  policy_gate_no_signer cfgW none envPayW 0 bodyW402 none reqW offerW 2
    rfl rfl rfl (by decide) (by decide) (by decide)

/-- C3: when the original request draws a 401, the pipeline invalidates
the cached token, re-authenticates, and resends exactly once (two wire
sends in total, the second being the reauth retry, and no payment retry);
when the resent request draws a second 401, the call terminates with the
classified `auth` error. -/
theorem reauth_retry_once :
    ∀ (cfg : ClientConfig) (cache0 : Option CachedToken) (env : Env) (now : Nat)
      (b1 : ResponseBody) (ra1 : Option String) (b2 : ResponseBody) (ra2 : Option String),
      (acquireToken cfg.credential now cache0 (env.exchanges.getD 0 none)).1.isSome = true →
      env.responses.getD 0 (.failure "no response") = .response 401 b1 ra1 →
      (acquireToken cfg.credential now none (env.exchanges.getD 1 none)).1.isSome = true →
      env.responses.getD 1 (.failure "no response") = .response 401 b2 ra2 →
      b2.parsesAsEnvelope = true →
      Event.invalidate ∈ (execute cfg cache0 env now).2 ∧
      wireCount (execute cfg cache0 env now).2 = 2 ∧
      Event.wireRequest .reauthRetry ∈ (execute cfg cache0 env now).2 ∧
      Event.wireRequest .paymentRetry ∉ (execute cfg cache0 env now).2 ∧
      (execute cfg cache0 env now).1.error = some (.auth (b2.message.getD "")) := by
  intro cfg cache0 env now b1 ra1 b2 ra2 hacq1 hresp1 hacq2 hresp2 hparse
  have hHF : handleFirst cfg env now (env.responses.getD 0 (.failure "no response")) =
      retryAfter401 cfg env now := by
    rw [hresp1]
    simp [handleFirst, is2xx]
  unfold execute
  split
  · rename_i c ev heq
    rw [heq] at hacq1
    simp at hacq1
  · rename_i tok c ev heq
    have hev := acquireToken_mem cfg.credential now cache0 (env.exchanges.getD 0 none)
    rw [heq] at hev
    simp only at hev
    rw [hHF]
    unfold retryAfter401
    split
    · rename_i c2 ev2 heq2
      rw [heq2] at hacq2
      simp at hacq2
    · rename_i tok2 c2 ev2 heq2
      have hev2 := acquireToken_mem cfg.credential now none (env.exchanges.getD 1 none)
      rw [heq2] at hev2
      simp only at hev2
      rw [hresp2]
      have hfin : finishOutcome (.response 401 b2 ra2) =
          errEnvelope 401 (.auth (b2.message.getD "")) := by
        simp [finishOutcome, is2xx, classify_401_auth b2 ra2 hparse]
      rw [hfin]
      refine ⟨by simp, ?_, by simp, ?_, rfl⟩
      · rw [wireCount_append, wireCount_cons, wireCount_eq_zero_of_exchange ev hev]
        simp only [wireCount_cons, wireCount_append, Event.isWire,
          wireCount_eq_zero_of_exchange ev2 hev2]
        simp [wireCount]
      · simp only [List.mem_append, List.mem_cons]
        rintro (h | h | h | h | h | h)
        · exact absurd (hev _ h) (by simp)
        · exact absurd h (by simp)
        · exact absurd h (by simp)
        · exact absurd (hev2 _ h) (by simp)
        · exact absurd h (by simp)
        · simp at h

/-- C3 witness: the fixture client against a server answering 401 twice —
one invalidation, two wire sends, a reauth retry and a terminal `auth`
error. -/
theorem reauth_retry_once_witness :
    Event.invalidate ∈ (execute cfgW none env401W 0).2 ∧
    wireCount (execute cfgW none env401W 0).2 = 2 ∧
    Event.wireRequest .reauthRetry ∈ (execute cfgW none env401W 0).2 ∧
    Event.wireRequest .paymentRetry ∉ (execute cfgW none env401W 0).2 ∧
    (execute cfgW none env401W 0).1.error = some (.auth (body401.message.getD "")) :=
  reauth_retry_once cfgW none env401W 0 body401 none body401 none
    rfl rfl rfl rfl rfl

theorem sfFold_preserves (cred : Credential) (h : cred.isPreAuth = false) :
    ∀ (cs : List Nat) (s : SFState), s.cache = none → s.inflight = true →
      (cs.foldl (fun st c => sfDiscover cred c st) s).exchangesIssued = s.exchangesIssued ∧
      (cs.foldl (fun st c => sfDiscover cred c st) s).waiters = s.waiters ++ cs := by
  intro cs
  induction cs with
  | nil => intro s h1 h2; exact ⟨rfl, by simp⟩
  | cons c rest ih =>
    intro s h1 h2
    have hd : sfDiscover cred c s = { s with waiters := s.waiters ++ [c] } := by
      unfold sfDiscover
      rw [if_neg (by simp [h])]
      split
      · rename_i t heq
        rw [h1] at heq
        exact Option.noConfusion heq
      · rw [if_pos h2]
    rw [List.foldl_cons, hd]
    obtain ⟨hc, hw⟩ := ih { s with waiters := s.waiters ++ [c] } h1 h2
    refine ⟨hc, ?_⟩
    rw [hw]
    simp

/-- C5: for a credential that is not a pre-authenticated token and an
empty token cache, any non-empty set of concurrent callers discovering
the missing token causes exactly one token-exchange request, and every
caller receives the result of that single exchange. -/
theorem single_flight_exchange :
    ∀ (cred : Credential) (callers : List Nat) (result : Option String),
      cred.isPreAuth = false → callers ≠ [] →
      (sfRun cred callers result).1 = 1 ∧
      (sfRun cred callers result).2 = callers.map (fun c => (c, result)) := by
  intro cred callers result h hne
  cases callers with
  | nil => exact absurd rfl hne
  | cons c rest =>
    have h1 : sfDiscover cred c sfInit =
        { cache := none, inflight := true, waiters := [c], exchangesIssued := 1 } := by
      simp [sfDiscover, sfInit, h]
    unfold sfRun
    rw [List.foldl_cons, h1]
    obtain ⟨hc, hw⟩ := sfFold_preserves cred h rest
      { cache := none, inflight := true, waiters := [c], exchangesIssued := 1 } rfl rfl
    rw [hc, hw]
    exact ⟨rfl, by simp⟩

/-- C5 witness: three concurrent callers with a user API key and an empty
cache — one exchange request, and all three receive its result. -/
theorem single_flight_exchange_witness :
    (sfRun (.userApiKey "k1") [0, 1, 2] (some "tok")).1 = 1 ∧
    (sfRun (.userApiKey "k1") [0, 1, 2] (some "tok")).2 =
      [0, 1, 2].map (fun c => (c, some "tok")) :=
  single_flight_exchange (.userApiKey "k1") [0, 1, 2] (some "tok") rfl
    (List.cons_ne_nil 0 [1, 2])

/-- C1 witness: the bound and retry exclusivity evaluated on the fixture
402 environment. -/
theorem execute_wire_bound_witness :
    wireCount (execute cfgW none envPayW 0).2 ≤ 3 ∧
    (Event.wireRequest .reauthRetry ∉ (execute cfgW none envPayW 0).2 ∨
     Event.wireRequest .paymentRetry ∉ (execute cfgW none envPayW 0).2) :=
  execute_wire_bound cfgW none envPayW 0

/-- C6 witness: the envelope invariant evaluated on the fixture double-401
environment. -/
theorem execute_envelope_exclusive_witness :
    (execute cfgW none env401W 0).1.exclusiveResult :=
  execute_envelope_exclusive cfgW none env401W 0

/-- C9 witness: the sharing-resource `create` equation evaluated on a
concrete client and request. -/
theorem proxies_single_request_witness :
    SharingResource.create ⟨httpW⟩ "s1" shareReqW =
      httpW.request ShareResponse "POST" ("/v1/secrets/" ++ "s1" ++ "/share")
        (some (.share shareReqW)) :=
  (proxies_single_request ⟨httpW⟩ ⟨httpW⟩ "s1" "sh1" "a1" shareReqW
    { name := "agent", description := none, auth_method := none, scopes := none,
      expires_at := none }
    { name := none, scopes := none, is_active := none, expires_at := none }).1

end Oneclaw
